import Mathlib

/-!
Verification of the diagram-declaration scripts of the ecommerce-documentation
repository.  Each Python script under architecture/diagrams declares a labeled
directed multigraph (nodes, edges, clusters) using the third-party `diagrams`
library and renders it to an image.  We shallowly embed the graph-assembly
layer: the state accumulated while a script runs (nodes, edges, clusters and
the active cluster-scope stack), the edge operators of the library, and each
script transcribed command by command in source order.  The rendering backend
is external to the repository; where a claim depends on it, the relevant
operation is modelled from the specification and marked as such.
-/

set_option maxHeartbeats 3200000

namespace EcomDiagrams

/-- A declared node: its identifier (position in construction order), display
label, visual category (the library class used to construct it, e.g. User,
Server, Kafka), and the cluster scope that was active at construction time. -/
structure DiagNode where
  id : Nat
  label : String
  category : String
  cluster : Option Nat
  deriving Repr, DecidableEq

/-- A declared cluster: its identifier (position in construction order), its
display name, and the enclosing cluster that was active when it was opened. -/
structure ClusterDecl where
  id : Nat
  name : String
  parent : Option Nat
  deriving Repr, DecidableEq

/-- A declared edge: source and target node identifiers, label, and whether it
is directed (the library operator minus declares undirected edges). -/
structure EdgeDecl where
  src : Nat
  dst : Nat
  label : String
  directed : Bool
  deriving Repr, DecidableEq

/-- The in-memory diagram being assembled while a script executes: the lists
of declared nodes, clusters and edges, plus the stack of currently-open
cluster scopes (head is the innermost `with Cluster` block). -/
structure DiagramState where
  nodes : List DiagNode
  clusters : List ClusterDecl
  edges : List EdgeDecl
  stack : List Nat
  deriving Repr, DecidableEq

def DiagramState.empty : DiagramState := ⟨[], [], [], []⟩

/-- Constructing a node registers it in the enclosing cluster scope active at
construction time and returns its identifier. -/
def addNode (label category : String) (s : DiagramState) : Nat × DiagramState :=
  (s.nodes.length,
    { s with nodes := s.nodes ++ [⟨s.nodes.length, label, category, s.stack.head?⟩] })

/-- Appends one edge record to the diagram's edge list. -/
def addEdge (src dst : Nat) (label : String) (directed : Bool)
    (s : DiagramState) : DiagramState :=
  { s with edges := s.edges ++ [⟨src, dst, label, directed⟩] }

/-- Modelled from the spec: the third-party diagrams library (not part of
src/) implements the edge operator so that "connecting two nodes with an edge
operator appends a directed edge to the diagram's edge list and returns the
target node to allow fluent chaining" (spec section 4.1).  `rshift a b l s`
models the Python expression `a >> Edge(label=l) >> b` (with `l` empty for a
bare `a >> b`): it appends the directed edge a -> b and evaluates to b. -/
def rshift (a b : Nat) (l : String) (s : DiagramState) : Nat × DiagramState :=
  (b, addEdge a b l true s)

/-- Modelled from the spec: the reversed edge operator of the third-party
library.  `lshift a b l s` models `a << Edge(label=l) << b`: the arrow is
reversed, so it appends the directed edge b -> a, and it evaluates to b so
that chains associate left to right. -/
def lshift (a b : Nat) (l : String) (s : DiagramState) : Nat × DiagramState :=
  (b, addEdge b a l true s)

/-- Modelled from the spec: the edge operator applied to a list of target
nodes.  `rshiftList a bs l s` models `a >> Edge(label=l) >> [b1, ..., bn]`
(and the bare `a >> [b1, ..., bn]`): it appends one directed edge from a to
each list element, in list order, and evaluates to the list. -/
def rshiftList (a : Nat) (bs : List Nat) (l : String)
    (s : DiagramState) : List Nat × DiagramState :=
  (bs, bs.foldl (fun t b => addEdge a b l true t) s)

/-- Modelled from the spec: the minus operator of the third-party library,
`a - b` (optionally through an Edge object), declares an undirected edge
between a and b and evaluates to b. -/
def undirLink (a b : Nat) (l : String) (s : DiagramState) : Nat × DiagramState :=
  (b, addEdge a b l false s)

/-- Entering a `with Cluster(name)` block: the new cluster's parent is the
scope active at construction time, and the new cluster is pushed as the
active scope. -/
def clusterOpen (name : String) (s : DiagramState) : DiagramState :=
  { s with
    clusters := s.clusters ++ [⟨s.clusters.length, name, s.stack.head?⟩],
    stack := s.clusters.length :: s.stack }

/-- Leaving a `with Cluster` block pops the active-scope stack. -/
def clusterClose (s : DiagramState) : DiagramState :=
  { s with stack := s.stack.tail }

/-- One source-level statement of a diagram script, in the transcription used
below.  Node and cluster identifiers are positions in construction order;
`edge a b l` transcribes `a >> Edge(label=l) >> b`, `edgeRev a b l`
transcribes `a << Edge(label=l) << b`, `fanOut a bs l` transcribes
`a >> [b1, ..., bn]`, and `link a b l` transcribes `a - b`. -/
inductive Cmd where
  | node (label category : String)
  | copen (name : String)
  | cclose
  | edge (src dst : Nat) (label : String)
  | edgeRev (src dst : Nat) (label : String)
  | fanOut (src : Nat) (dsts : List Nat) (label : String)
  | link (a b : Nat) (label : String)
  deriving Repr, DecidableEq

/-- Executes one script statement on the diagram state. -/
def step (s : DiagramState) : Cmd → DiagramState
  | .node l c => (addNode l c s).2
  | .copen n => clusterOpen n s
  | .cclose => clusterClose s
  | .edge a b l => (rshift a b l s).2
  | .edgeRev a b l => (lshift a b l s).2
  | .fanOut a bs l => (rshiftList a bs l s).2
  | .link a b l => (undirLink a b l s).2

/-- Runs a whole script from the empty diagram. -/
def run (cmds : List Cmd) : DiagramState := cmds.foldl step .empty

/-- Checks, statement by statement, that every edge declared by the script
refers only to nodes already constructed at that point of the execution
(`n` counts the nodes constructed so far). -/
def wfFrom (n : Nat) : List Cmd → Bool
  | [] => true
  | .node _ _ :: cs => wfFrom (n + 1) cs
  | .copen _ :: cs => wfFrom n cs
  | .cclose :: cs => wfFrom n cs
  | .edge a b _ :: cs => decide (a < n) && decide (b < n) && wfFrom n cs
  | .edgeRev a b _ :: cs => decide (a < n) && decide (b < n) && wfFrom n cs
  | .fanOut a bs _ :: cs =>
      decide (a < n) && bs.all (fun b => decide (b < n)) && wfFrom n cs
  | .link a b _ :: cs => decide (a < n) && decide (b < n) && wfFrom n cs

/-- A script references no node constructed later than the edge using it. -/
def wfScript (cmds : List Cmd) : Bool := wfFrom 0 cmds

/-- Every edge of the final state has both endpoints among the declared
node identifiers. -/
def edgesResolve (s : DiagramState) : Bool :=
  s.edges.all (fun e =>
    decide (e.src < s.nodes.length) && decide (e.dst < s.nodes.length))

/-- Cluster `child` is declared directly inside cluster `par`. -/
def directlyInside (s : DiagramState) (child par : Nat) : Prop :=
  ∃ c, c ∈ s.clusters ∧ c.id = child ∧ c.parent = some par

/-- Every open cluster scope on the stack refers to an already declared
cluster. -/
def StackOk (s : DiagramState) : Prop :=
  ∀ i ∈ s.stack, i < s.clusters.length

/-- Every declared cluster's parent was declared strictly before it. -/
def ParentsOk (s : DiagramState) : Prop :=
  ∀ c ∈ s.clusters, ∀ p, c.parent = some p → p < c.id

/-- The declared cluster identifiers are exactly the positions in
construction order. -/
def IdsIndexed (s : DiagramState) : Prop :=
  s.clusters.map (fun c => c.id) = List.range s.clusters.length

namespace C1Ctx

/-- Transcription of c1_system_context_diagram.py: node and cluster
identifiers in construction order. -/
def customer : Nat := 0
def admin_user : Nat := 1
def payment_gateway : Nat := 2
def shipping_provider : Nat := 3
def identity_provider : Nat := 4
def ecommerce_system : Nat := 5

def cmds : List Cmd := [
  .node "Customer\n(Uses the platform to browse and purchase products)" "User",
  .node "Admin User\n(Manages platform content, users, and orders)" "User",
  .node "External Payment Gateway\n(e.g., Stripe, PayPal)\nProcesses payments" "Server",
  .node "External Shipping Provider\n(e.g., FedEx, DHL)\nHandles order fulfillment logistics" "Server",
  .node "External Identity Provider\n(e.g., Auth0, Okta)\nManages user authentication" "Vault",
  .copen "Our E-Commerce Ecosystem",
  .node "E-Commerce Platform\n(The software system being built)" "Server",
  .cclose,
  .edge customer ecommerce_system "Uses (HTTPS)",
  .edge admin_user ecommerce_system "Manages (HTTPS)",
  .edge ecommerce_system payment_gateway "Processes Payments Via (API/HTTPS)",
  .edge ecommerce_system shipping_provider "Arranges Shipping Via (API)",
  .edge ecommerce_system identity_provider "Authenticates Users Via (OAuth/SAML)"]

def state : DiagramState := run cmds

end C1Ctx

namespace C2Container

/-- Transcription of c2_container_diagram.py: node identifiers in
construction order. -/
def customer : Nat := 0
def admin_user : Nat := 1
def external_payment_gateway : Nat := 2
def external_shipping_provider : Nat := 3
def external_identity_provider : Nat := 4
def web_app : Nat := 5
def mobile_app : Nat := 6
def api_gateway : Nat := 7
def product_service : Nat := 8
def order_service : Nat := 9
def payment_service : Nat := 10
def user_service : Nat := 11
def inventory_service : Nat := 12
def notification_service : Nat := 13
def search_service_container : Nat := 14
def product_db : Nat := 15
def order_db : Nat := 16
def user_db : Nat := 17
def inventory_db : Nat := 18
def payment_db : Nat := 19
def search_index : Nat := 20
def cache : Nat := 21
def message_broker : Nat := 22

def cmdsA : List Cmd := [
  .node "Customer\n(Web/Mobile User)" "User",
  .node "Admin User\n(Manages platform)" "User",
  .node "External Payment Gateway\n(e.g., Stripe, PayPal)" "Server",
  .node "External Shipping Provider\n(e.g., FedEx, DHL)" "Server",
  .node "External Identity Provider\n(e.g., Auth0, Okta)" "Vault",
  .copen "E-Commerce Platform (Software System)",
  .copen "Frontend Applications",
  .node "Web Application\n(React/Vue/Angular)" "Server",
  .node "Mobile Application\n(iOS/Android)" "Mobile",
  .cclose,
  .copen "API Layer",
  .node "API Gateway\n(Handles external requests, routes to services)" "APIGateway",
  .cclose,
  .copen "Microservices (Backend Systems)",
  .node "Product Service\n(Manages product catalog, pricing)" "Server",
  .node "Order Service\n(Manages orders, cart, checkout)" "Server",
  .node "Payment Service\n(Processes payments)" "Server",
  .node "User Service\n(Manages user accounts, profiles)" "Server",
  .node "Inventory Service\n(Manages stock levels - if separate)" "Server",
  .node "Notification Service\n(Handles emails, SMS, push notifications)" "Server",
  .node "Search Service\n(Provides search capabilities - distinct from index)" "Server",
  .cclose,
  .copen "Data Stores",
  .node "Product DB\n(PostgreSQL)" "PostgreSQL",
  .node "Order DB\n(MongoDB)" "MongoDB",
  .node "User DB\n(PostgreSQL - for user profiles)" "PostgreSQL",
  .node "Inventory DB\n(Redis - for fast stock checks)" "Redis",
  .node "Payment DB\n(Cassandra - for transaction logs)" "Cassandra",
  .cclose,
  .copen "Search & Caching",
  .node "Search Index\n(Elasticsearch)" "Elasticsearch",
  .node "Distributed Cache\n(Redis)" "Redis",
  .cclose,
  .copen "Messaging Infrastructure",
  .node "Message Broker\n(Kafka/RabbitMQ)\nEvent-driven communication" "Kafka",
  .cclose,
  .edge web_app api_gateway "Makes API calls (HTTPS)",
  .edge mobile_app api_gateway "Makes API calls (HTTPS)",
  .edge api_gateway product_service "Routes to"]


def cmdsB : List Cmd := [
  .edge api_gateway order_service "Routes to",
  .edge api_gateway payment_service "Routes to",
  .edge api_gateway user_service "Routes to",
  .edge api_gateway search_service_container "Routes to",
  .edge api_gateway notification_service "Routes to (async trigger)",
  .edge order_service product_service "Requests product info",
  .edge order_service inventory_service "Requests inventory check",
  .edge order_service payment_service "Initiates payment",
  .edge order_service message_broker "Publishes OrderCreated event",
  .edge inventory_service inventory_db "Reads/Writes stock levels",
  .edge payment_service message_broker "Publishes PaymentProcessed event",
  .edge product_service message_broker "Publishes ProductUpdated event",
  .edge inventory_service message_broker "Publishes StockUpdated event",
  .edge user_service message_broker "Publishes UserRegistered event",
  .edge search_service_container search_index "Queries/Manages",
  .edge message_broker notification_service "OrderCreated event",
  .edge message_broker order_service "PaymentProcessed event",
  .edge message_broker search_service_container "ProductUpdated event",
  .edge message_broker notification_service "PaymentProcessed event",
  .edge message_broker product_service "StockUpdated event",
  .edge message_broker notification_service "UserRegistered event",
  .edge product_service product_db "Reads/Writes",
  .edge product_service search_index "Updates",
  .edge product_service cache "Uses",
  .edge order_service order_db "Reads/Writes",
  .edge order_service cache "Uses",
  .edge payment_service payment_db "Reads/Writes",
  .edge user_service user_db "Reads/Writes",
  .edge inventory_service inventory_db "Reads/Writes",
  .edge search_service_container search_index "Queries",
  .cclose,
  .edge customer web_app "Uses",
  .edge customer mobile_app "Uses",
  .edge admin_user web_app "Accesses Admin Panel via",
  .edge payment_service external_payment_gateway "Processes payments via (HTTPS)",
  .edge order_service external_shipping_provider "Gets shipping rates/labels from (API)",
  .edge user_service external_identity_provider "Authenticates via (OAuth/SAML)",
  .edge api_gateway external_identity_provider "Delegates authentication (sometimes)"]

def cmds : List Cmd := cmdsA ++ cmdsB

def state : DiagramState := run cmds

end C2Container

namespace C3Search

/-- Transcription of c3_search_service_diagram.py. -/
def frontend : Nat := 0
def product_service : Nat := 1
def inventory_service : Nat := 2
def search_config_db : Nat := 3
def msg_broker : Nat := 4
def elasticsearch_cluster : Nat := 5
def api_interface : Nat := 6
def search_orchestrator : Nat := 7
def query_builder : Nat := 8
def facet_manager : Nat := 9
def result_processor : Nat := 10
def search_configuration : Nat := 11
def search_repository : Nat := 12
def index_manager : Nat := 13
def event_consumer : Nat := 14

def cmds : List Cmd := [
  .node "Frontend Applications" "Users",
  .node "Product Service" "Server",
  .node "Inventory Service" "Server",
  .node "Search Configuration DB\n(MongoDB)" "MongoDB",
  .node "Message Broker\n(e.g., Kafka, RabbitMQ)" "Kafka",
  .node "Elasticsearch Cluster" "Elasticsearch",
  .copen "Search Service Container\n(Provides search capabilities across catalog)",
  .node "Search API Interface\n[Component: NestJS Controller]\nExposes search endpoints" "Server",
  .node "Search Orchestrator\n[Component: NestJS Service]\nCoordinates search operations" "Server",
  .node "Query Builder\n[Component: Query Service]\nBuilds Elasticsearch queries" "Server",
  .node "Facet Manager\n[Component: Filter Service]\nHandles filtering and faceted search" "Server",
  .node "Result Processor\n[Component: Processor Service]\nTransforms and enriches results" "Server",
  .node "Search Configuration\n[Component: Domain Entities]\nDefines searchable attributes, boosts, etc." "Server",
  .node "Search Repository\n[Component: Repository]\nManages configuration storage" "Server",
  .node "Index Manager\n[Component: Integration Service]\nManages Elasticsearch indexes" "Server",
  .node "Event Consumer\n[Component: Message Client]\nConsumes product/inventory events" "Server",
  .edge api_interface search_orchestrator "Uses",
  .edge event_consumer index_manager "Updates via",
  .edge search_orchestrator query_builder "Uses",
  .edge search_orchestrator facet_manager "Uses",
  .edge search_orchestrator result_processor "Uses",
  .edge query_builder search_configuration "Configures using",
  .edge facet_manager search_configuration "Configures using",
  .edge index_manager search_configuration "Manages",
  .edge search_repository search_configuration "Persists",
  .cclose,
  .edge frontend api_interface "Search requests",
  .edge product_service api_interface "Direct index requests",
  .edge msg_broker event_consumer "Product/Inventory events",
  .edge search_repository search_config_db "Reads/Writes",
  .edge query_builder elasticsearch_cluster "Queries",
  .edge facet_manager elasticsearch_cluster "Queries",
  .edge index_manager elasticsearch_cluster "Manages indexes"]

def state : DiagramState := run cmds

end C3Search

namespace C3Notif

/-- Transcription of c3_notification_service_diagram.py. -/
def other_services : Nat := 0
def admin : Nat := 1
def notification_db : Nat := 2
def msg_broker : Nat := 3
def email_provider : Nat := 4
def sms_provider : Nat := 5
def push_provider : Nat := 6
def api_interface : Nat := 7
def notification_manager : Nat := 8
def template_engine : Nat := 9
def delivery_scheduler : Nat := 10
def notification_templates : Nat := 11
def notification_preferences : Nat := 12
def notification_repository : Nat := 13
def event_consumer : Nat := 14
def email_gateway : Nat := 15
def sms_gateway : Nat := 16
def push_gateway : Nat := 17

def cmds : List Cmd := [
  .node "Other Microservices\n(Order, User, Product, etc.)" "Server",
  .node "Admin Users\n(Manages notification templates)" "User",
  .node "Notification Database\n(MongoDB)" "MongoDB",
  .node "Message Broker\n(e.g., Kafka, RabbitMQ)" "Kafka",
  .node "Email Service Provider\n(e.g., SendGrid, Mailchimp)" "SNS",
  .node "SMS Service Provider\n(e.g., Twilio)" "SNS",
  .node "Push Notification Provider\n(e.g., Firebase FCM)" "SNS",
  .copen "Notification Service Container\n(Handles emails, SMS, push notifications)",
  .node "API Interface\n[Component: NestJS Controller]\nExposes notification endpoints" "Server",
  .node "Notification Manager\n[Component: NestJS Service]\nOrchestrates notification delivery" "Server",
  .node "Template Engine\n[Component: Template Service]\nRenders notification content" "Server",
  .node "Delivery Scheduler\n[Component: Queue Service]\nHandles timing and retries" "Server",
  .node "Notification Templates\n[Component: Domain Entities]\nEmail/SMS/Push templates" "Server",
  .node "User Notification Preferences\n[Component: Domain Entities]\nUser channel/frequency settings" "Server",
  .node "Notification Repository\n[Component: Repository]\nStores notification records and templates" "Server",
  .node "Event Consumer\n[Component: Message Client]\nConsumes events from other services" "Server",
  .node "Email Gateway\n[Component: Integration Client]\nSends emails" "Server",
  .node "SMS Gateway\n[Component: Integration Client]\nSends SMS messages" "Server",
  .node "Push Gateway\n[Component: Integration Client]\nSends push notifications" "Server",
  .edge api_interface notification_manager "Uses",
  .edge event_consumer notification_manager "Triggers",
  .edge notification_manager template_engine "Renders with",
  .edge notification_manager delivery_scheduler "Schedules via",
  .edge notification_manager notification_preferences "Uses",
  .edge template_engine notification_templates "Uses",
  .edge delivery_scheduler email_gateway "Sends via",
  .edge delivery_scheduler sms_gateway "Sends via",
  .edge delivery_scheduler push_gateway "Sends via",
  .edge notification_repository notification_templates "Persists",
  .edge notification_repository notification_preferences "Persists",
  .cclose,
  .edge other_services api_interface "Direct API calls",
  .edge msg_broker event_consumer "Events (OrderCreated, etc.)",
  .edge admin api_interface "Manages templates",
  .edge notification_repository notification_db "Reads/Writes",
  .edge email_gateway email_provider "Sends via",
  .edge sms_gateway sms_provider "Sends via",
  .edge push_gateway push_provider "Sends via"]

def state : DiagramState := run cmds

end C3Notif

namespace C3User

/-- Transcription of c3_user_service_diagram.py. -/
def customer : Nat := 0
def admin : Nat := 1
def frontend : Nat := 2
def other_services : Nat := 3
def identity_provider : Nat := 4
def user_db : Nat := 5
def msg_broker : Nat := 6
def api_interface : Nat := 7
def auth_service : Nat := 8
def profile_service : Nat := 9
def preferences_service : Nat := 10
def domain_entities : Nat := 11
def user_repository : Nat := 12
def auth_provider_client : Nat := 13
def event_publisher : Nat := 14

def cmds : List Cmd := [
  .node "Customers" "Users",
  .node "Admin Users" "User",
  .node "Frontend Applications" "Server",
  .node "Other Microservices\n(Order, Product, etc.)" "Server",
  .node "External Identity Provider\n(e.g., Auth0, Okta)" "Vault",
  .node "User Database\n(PostgreSQL)" "PostgreSQL",
  .node "Message Broker\n(e.g., Kafka, RabbitMQ)" "Kafka",
  .copen "User Service Container\n(Manages user accounts, profiles, and authentication)",
  .node "API Interface\n[Component: NestJS Controller]\nExposes user management endpoints" "Server",
  .node "Authentication Service\n[Component: NestJS Service]\nHandles login, registration, token verification" "Server",
  .node "Profile Management Service\n[Component: NestJS Service]\nManages user profile data" "Server",
  .node "User Preferences Service\n[Component: NestJS Service]\nManages user settings and preferences" "Server",
  .node "User Domain Entities\n[Component: TypeORM Entities]\nUser, Profile, Preferences classes" "Server",
  .node "User Repository\n[Component: TypeORM Repository]\nData access for user entities" "Server",
  .node "Identity Provider Client\n[Component: OAuth/OIDC Client]\nIntegrates with external IdP" "Server",
  .node "Event Publisher\n[Component: Message Client]\nPublishes user-related events" "Server",
  .edge api_interface auth_service "Delegates auth",
  .edge api_interface profile_service "Delegates profile ops",
  .edge api_interface preferences_service "Delegates preferences",
  .edge auth_service domain_entities "Uses",
  .edge auth_service auth_provider_client "Authenticates via",
  .edge profile_service domain_entities "Uses",
  .edge profile_service user_repository "Persists via",
  .edge profile_service event_publisher "Publishes events via",
  .edge preferences_service domain_entities "Uses",
  .edge preferences_service user_repository "Persists via",
  .cclose,
  .edge frontend api_interface "User operations (register, login, profile)",
  .edge other_services api_interface "User validation, profile data",
  .edge user_repository user_db "Reads/Writes",
  .edge auth_provider_client identity_provider "Authenticates via",
  .edge event_publisher msg_broker "Publishes events",
  .edge customer frontend "Uses via frontend",
  .edge admin frontend "Manages users via"]

def state : DiagramState := run cmds

end C3User

namespace C3Inventory

/-- Transcription of c3_inventory_service_diagram.py. -/
def admin : Nat := 0
def product_service : Nat := 1
def order_service : Nat := 2
def frontend : Nat := 3
def inventory_db : Nat := 4
def inventory_cache : Nat := 5
def msg_broker : Nat := 6
def api_interface : Nat := 7
def inventory_manager : Nat := 8
def reservation_service : Nat := 9
def allocation_service : Nat := 10
def reporting_service : Nat := 11
def domain_entities : Nat := 12
def inventory_repository : Nat := 13
def cache_manager : Nat := 14
def event_publisher : Nat := 15
def event_consumer : Nat := 16

def cmds : List Cmd := [
  .node "Admin/Warehouse Users" "User",
  .node "Product Service" "Server",
  .node "Order Service" "Server",
  .node "Frontend Applications" "Users",
  .node "Inventory Database\n(PostgreSQL)" "PostgreSQL",
  .node "Inventory Cache\n(Redis)" "Redis",
  .node "Message Broker\n(e.g., Kafka, RabbitMQ)" "Kafka",
  .copen "Inventory Service Container\n(Manages stock levels and inventory operations)",
  .node "Inventory API Interface\n[Component: NestJS Controller]\nExposes inventory endpoints" "Server",
  .node "Inventory Manager\n[Component: NestJS Service]\nCore inventory operations logic" "Server",
  .node "Reservation Service\n[Component: NestJS Service]\nReserves inventory during checkout" "Server",
  .node "Allocation Service\n[Component: NestJS Service]\nAllocates inventory for fulfilled orders" "Server",
  .node "Reporting Service\n[Component: NestJS Service]\nInventory analytics and reporting" "Server",
  .node "Inventory Domain Entities\n[Component: TypeORM Entities]\nStockItem, Warehouse, etc." "Server",
  .node "Inventory Repository\n[Component: TypeORM Repository]\nData access for inventory entities" "Server",
  .node "Cache Manager\n[Component: Cache Client]\nManages fast access to inventory levels" "Server",
  .node "Event Publisher\n[Component: Message Client]\nPublishes inventory events" "Server",
  .node "Event Consumer\n[Component: Message Client]\nConsumes order and product events" "Server",
  .edge api_interface inventory_manager "Uses",
  .edge api_interface reservation_service "Uses",
  .edge api_interface allocation_service "Uses",
  .edge api_interface reporting_service "Uses",
  .edge event_consumer reservation_service "Triggers",
  .edge event_consumer allocation_service "Triggers",
  .edge inventory_manager domain_entities "Uses",
  .edge reservation_service domain_entities "Uses",
  .edge allocation_service domain_entities "Uses",
  .edge reporting_service domain_entities "Uses",
  .edge inventory_manager inventory_repository "Persists via",
  .edge reservation_service inventory_repository "Persists via",
  .edge allocation_service inventory_repository "Persists via",
  .edge reporting_service inventory_repository "Reads data via",
  .edge inventory_manager cache_manager "Uses",
  .edge reservation_service cache_manager "Uses",
  .edge inventory_manager event_publisher "Publishes via",
  .edge reservation_service event_publisher "Publishes via",
  .edge allocation_service event_publisher "Publishes via",
  .cclose,
  .edge admin api_interface "Manages inventory",
  .edge product_service api_interface "Gets inventory levels",
  .edge order_service api_interface "Reserves/allocates items",
  .edge frontend api_interface "Views availability",
  .edge msg_broker event_consumer "Order/Product events",
  .edge inventory_repository inventory_db "Reads/Writes",
  .edge cache_manager inventory_cache "Reads/Writes",
  .edge event_publisher msg_broker "Publishes events"]

def state : DiagramState := run cmds

end C3Inventory

namespace C3Product

/-- Transcription of c3_product_service_diagram.py. -/
def frontend : Nat := 0
def admin_portal : Nat := 1
def order_service : Nat := 2
def recommendation_service : Nat := 3
def product_db : Nat := 4
def search_index : Nat := 5
def msg_broker : Nat := 6
def api_interface : Nat := 7
def catalog : Nat := 8
def inventory : Nat := 9
def pricing : Nat := 10
def search : Nat := 11
def review : Nat := 12
def persistence : Nat := 13
def event_publishing : Nat := 14

def cmds : List Cmd := [
  .node "Frontend Applications" "Users",
  .node "Admin Portal" "User",
  .node "Order Service" "Server",
  .node "Recommendation Service" "Server",
  .node "Product Database\n(e.g., PostgreSQL, MongoDB)" "PostgreSQL",
  .node "Search Index\n(e.g., Elasticsearch)" "Elasticsearch",
  .node "Message Broker\n(e.g., Kafka, RabbitMQ)" "Kafka",
  .copen "Product Service Container\n(Manages product info, inventory, pricing, search)",
  .node "API Interface\n(REST/GraphQL)\nExposes product functionalities" "Server",
  .node "Product Catalog Component\nCore logic for product details, categories, attributes" "Server",
  .node "Inventory Component\nTracks stock levels, availability" "Server",
  .node "Pricing Component\nCalculates prices, handles promotions" "Server",
  .node "Search Integration Component\nManages product indexing, interfaces with Search Index" "Server",
  .node "Review Management Component\nHandles product reviews" "Server",
  .node "Data Persistence Component\nDB interactions for product, inventory, reviews" "Server",
  .node "Event Publishing Component\nPublishes domain events" "Server",
  .edge api_interface catalog "Delegates to",
  .edge api_interface inventory "Delegates to",
  .edge api_interface pricing "Delegates to",
  .edge api_interface search "Queries",
  .edge api_interface review "Delegates to",
  .edge catalog persistence "Uses for product data",
  .edge inventory persistence "Uses for inventory data",
  .edge review persistence "Uses for review data",
  .edge pricing persistence "Uses for pricing rules (optional)",
  .edge catalog search "Notifies for indexing",
  .edge inventory search "Notifies stock for indexing",
  .edge catalog event_publishing "Publishes changes",
  .edge inventory event_publishing "Publishes stock updates",
  .edge pricing event_publishing "Publishes price changes",
  .edge review event_publishing "Publishes new reviews",
  .cclose,
  .edge frontend api_interface "Gets product info, search",
  .edge admin_portal api_interface "Manages product catalog",
  .edge order_service api_interface "Gets product details, prices",
  .edge recommendation_service api_interface "Gets product metadata",
  .edge persistence product_db "Reads/Writes",
  .edge search search_index "Indexes/Queries",
  .edge event_publishing msg_broker "Sends events to"]

def state : DiagramState := run cmds

end C3Product

namespace C3Payment

/-- Transcription of c3_payment_service_diagram.py. -/
def order_service : Nat := 0
def admin_user : Nat := 1
def payment_gateway_stripe : Nat := 2
def payment_gateway_paypal : Nat := 3
def fraud_service : Nat := 4
def payment_db : Nat := 5
def msg_broker : Nat := 6
def api_interface : Nat := 7
def processor : Nat := 8
def gateway_integration : Nat := 9
def transaction_mgr : Nat := 10
def fraud_integration : Nat := 11
def persistence : Nat := 12
def event_publishing : Nat := 13

def cmds : List Cmd := [
  .node "Order Service" "Server",
  .node "Admin User/System\n(for refunds, configuration)" "User",
  .node "External Payment Gateway\n(e.g., Stripe)" "General",
  .node "External Payment Gateway\n(e.g., PayPal)" "General",
  .node "External Fraud Detection Service\n(Optional)" "KeyVaults",
  .node "Payment Database\n(e.g., PostgreSQL, MySQL)" "PostgreSQL",
  .node "Message Broker\n(e.g., Kafka, RabbitMQ)" "Kafka",
  .copen "Payment Service Container\n(Handles payment processing, gateway integrations)",
  .node "API Interface\n(REST/gRPC)\nExposes payment operations" "Server",
  .node "Payment Processing Component\nOrchestrates payment authorization, capture, refunds" "Server",
  .node "Payment Gateway Integration Component\nAdapters for external payment gateways" "Server",
  .node "Transaction Management Component\nManages payment transaction lifecycle and history" "Server",
  .node "Fraud Detection Integration Component\n(Optional) Connects to fraud screening services" "Server",
  .node "Data Persistence Component\nStores transaction data, gateway configs" "Server",
  .node "Event Publishing Component\nPublishes payment status events" "Server",
  .edge api_interface processor "Requests",
  .edge processor gateway_integration "Uses",
  .edge processor transaction_mgr "Updates/Reads",
  .edge processor fraud_integration "Consults (optional)",
  .edge transaction_mgr persistence "Uses",
  .edge processor event_publishing "Publishes via",
  .edge gateway_integration persistence "Stores config/logs via",
  .cclose,
  .edge order_service api_interface "Initiates Payment, Receives Status",
  .edge admin_user api_interface "Manages Refunds, Configuration",
  .edge gateway_integration payment_gateway_stripe "Processes via",
  .edge gateway_integration payment_gateway_paypal "Processes via",
  .edge fraud_integration fraud_service "Checks transaction with",
  .edge persistence payment_db "Reads/Writes",
  .edge event_publishing msg_broker "Sends events to"]

def state : DiagramState := run cmds

end C3Payment

namespace C3Order

/-- Transcription of c3_order_service_diagram.py. -/
def api_gateway : Nat := 0
def payment_service : Nat := 1
def message_broker : Nat := 2
def order_db : Nat := 3
def api_controller : Nat := 4
def app_service : Nat := 5
def cart_component : Nat := 6
def domain_entities : Nat := 7
def order_repo : Nat := 8
def payment_client : Nat := 9
def event_publisher : Nat := 10

def cmds : List Cmd := [
  .node "API Gateway\n[External Container]" "Server",
  .node "Payment Service\n[External Container]" "Server",
  .node "Message Broker (RabbitMQ)\n[External Container]" "Kafka",
  .node "Order DB (PostgreSQL)\n[External Container]" "PostgreSQL",
  .copen "Order Service Container",
  .node "Order API Controller\n[Component: NestJS Controller]\nHandles incoming HTTP requests for orders and carts" "Server",
  .node "Order Application Service\n[Component: NestJS Service]\nCore business logic for order creation, updates, and management" "Server",
  .node "Cart Management Component\n[Component: NestJS Service/Module]\nManages shopping cart logic" "Server",
  .node "Order Domain Entities\n[Component: TypeORM Entities/Classes]\nRepresents Order, OrderItem, etc." "Server",
  .node "Order Repository\n[Component: TypeORM Repository]\nData access for order entities" "Server",
  .node "Payment Service Client\n[Component: HTTP Client Wrapper]\nCommunicates with the Payment Service" "Server",
  .node "Event Publisher\n[Component: RabbitMQ Client Wrapper]\nPublishes domain events" "Server",
  .edge api_controller app_service "Routes to",
  .edge api_controller cart_component "Routes to",
  .edge app_service domain_entities "Uses",
  .edge app_service order_repo "Persists via",
  .edge app_service payment_client "Requests payment",
  .edge app_service event_publisher "Publishes events",
  .edge cart_component domain_entities "Uses",
  .edge cart_component order_repo "Persists via",
  .cclose,
  .edge api_gateway api_controller "Routes HTTP requests to",
  .edge order_repo order_db "Reads/Writes [SQL]",
  .edge payment_client payment_service "Requests payment processing [HTTPS/JSON]",
  .edge event_publisher message_broker "Publishes \x27OrderCreated\x27 etc. [AMQP]"]

def state : DiagramState := run cmds

end C3Order

namespace DataFlow

/-- Transcription of data_flow_diagram.py.  The two anchor nodes are created
by create_rank_node with an empty label; the four invisible layout edges at
the end are produced by add_invisible_edge, which wraps the same edge
operator. -/
def user_entity : Nat := 0
def admin_entity : Nat := 1
def auth_process : Nat := 2
def user_process : Nat := 3
def catalog_process : Nat := 4
def cart_process : Nat := 5
def order_process : Nat := 6
def payment_process : Nat := 7
def fulfill_process : Nat := 8
def notify_process : Nat := 9
def user_db : Nat := 10
def product_db : Nat := 11
def order_db : Nat := 12
def payment_db : Nat := 13
def idp : Nat := 14
def payment_gw : Nat := 15
def shipping_api : Nat := 16
def email_service : Nat := 17
def anchor1 : Nat := 18
def anchor2 : Nat := 19

def cmdsA : List Cmd := [
  .copen "External\nEntities",
  .node "Customer" "StartEnd",
  .node "Administrator" "StartEnd",
  .cclose,
  .copen "Core Processes",
  .copen "User Management",
  .node "Authentication\nProcess" "PredefinedProcess",
  .node "User Management\nProcess" "PredefinedProcess",
  .cclose,
  .copen "Product & Cart",
  .node "Catalog Management\nProcess" "PredefinedProcess",
  .node "Cart Management\nProcess" "PredefinedProcess",
  .cclose,
  .copen "Order Processing",
  .node "Order Management\nProcess" "PredefinedProcess",
  .node "Payment\nProcessing" "PredefinedProcess",
  .node "Order Fulfillment\nProcess" "PredefinedProcess",
  .cclose,
  .node "Notification\nProcess" "PredefinedProcess",
  .cclose,
  .copen "Data\nStores",
  .node "User DB" "Database",
  .node "Product DB" "Database",
  .node "Order DB" "Database",
  .node "Payment DB" "Database",
  .cclose,
  .copen "External\nSystems",
  .node "Identity\nProvider" "Document",
  .node "Payment\nGateway" "Document",
  .node "Shipping\nProvider API" "Document",
  .node "Email\nService" "Document",
  .cclose,
  .node "" "StartEnd",
  .node "" "StartEnd",
  .edge user_entity auth_process "Login",
  .edge auth_process user_entity "Auth token"]


def cmdsB : List Cmd := [
  .edge auth_process idp "Verify",
  .edge user_entity user_process "Register",
  .edge user_process user_db "Store profile",
  .edge user_entity catalog_process "Browse",
  .edge catalog_process user_entity "Products",
  .edge catalog_process product_db "Query",
  .edge admin_entity catalog_process "Manage",
  .edge user_entity cart_process "Add item",
  .edge cart_process user_entity "Show cart",
  .edge cart_process product_db "Check stock",
  .edge cart_process order_db "Save cart",
  .edge user_entity order_process "Place order",
  .edge cart_process order_process "Cart data",
  .edge order_process order_db "Save order",
  .edge order_process user_entity "Confirm",
  .edge order_process payment_process "Process payment",
  .edge payment_process payment_gw "Auth request",
  .edge payment_gw payment_process "Authorize",
  .edge payment_process payment_db "Record",
  .edge payment_process order_process "Status",
  .edge order_process notify_process "Order created",
  .edge payment_process notify_process "Payment complete",
  .edge admin_entity fulfill_process "Manage",
  .edge fulfill_process order_db "Order info",
  .edge fulfill_process order_db "Update status",
  .edge fulfill_process shipping_api "Ship request",
  .edge shipping_api fulfill_process "Ship label",
  .edge order_process product_db "Update inventory",
  .edge fulfill_process notify_process "Ship event",
  .edge notify_process email_service "Send email",
  .edge email_service user_entity "Deliver",
  .edge anchor1 order_process "",
  .edge anchor1 cart_process "",
  .edge anchor2 payment_db "",
  .edge anchor2 product_db ""]

def cmds : List Cmd := cmdsA ++ cmdsB

def state : DiagramState := run cmds

end DataFlow

namespace CommPatterns

/-- Transcription of communication_styles_patterns_diagram.py.  The
services_group and external_group list bindings create no nodes or edges. -/
def gateway : Nat := 0
def broker : Nat := 1
def user_service : Nat := 2
def product_service : Nat := 3
def order_service : Nat := 4
def payment_service : Nat := 5
def notification_service : Nat := 6
def idp : Nat := 7
def payment_gw : Nat := 8
def email_svc : Nat := 9
def shipping_api : Nat := 10

def cmds : List Cmd := [
  .node "API Gateway" "Nginx",
  .node "Message Broker" "Kafka",
  .copen "Internal Microservices",
  .node "User Service" "Server",
  .node "Product Service" "Server",
  .node "Order Service" "Server",
  .node "Payment Service" "Server",
  .node "Notification Service" "Server",
  .cclose,
  .copen "External Systems",
  .node "Identity Provider (IdP)" "Vault",
  .node "Payment Gateway (Ext.)" "Server",
  .node "Email Service (Ext.)" "Blank",
  .node "Shipping API (Ext.)" "Blank",
  .cclose,
  .edge gateway user_service "REST API Calls",
  .edge gateway product_service "REST API Calls",
  .edge gateway order_service "REST API Calls",
  .edge gateway payment_service "REST API Calls",
  .edge gateway idp "Auth Validation",
  .edge payment_service payment_gw "Process Payment (HTTPS)",
  .edge order_service shipping_api "Get Shipping Rates (HTTPS)",
  .edge user_service broker "Publishes UserRegistered",
  .edge product_service broker "Publishes ProductUpdated",
  .edge order_service broker "Publishes OrderCreated,\nOrderShipped",
  .edge payment_service broker "Publishes PaymentProcessed",
  .edge broker notification_service "Consumes All Events\n(for notifications)",
  .edge broker product_service "Consumes OrderCreated\n(e.g., for inventory/analytics)",
  .edge broker order_service "Consumes PaymentProcessed\n(to update order status)",
  .edge notification_service email_svc "Sends Email (via API)"]

def state : DiagramState := run cmds

end CommPatterns

namespace Observability

/-- Transcription of observability_stack_diagram.py.  The for-loop over the
four instrumented services is unrolled in source order; the three Grafana
datasource declarations use the reversed operator and are transcribed with
edgeRev, whose interpretation appends the reversed edge. -/
def sre : Nat := 0
def developer : Nat := 1
def business : Nat := 2
def user_svc : Nat := 3
def order_svc : Nat := 4
def product_svc : Nat := 5
def payment_svc : Nat := 6
def prometheus : Nat := 7
def prom_am : Nat := 8
def prom_stateful : Nat := 9
def prom_service : Nat := 10
def grafana : Nat := 11
def grafana_deploy : Nat := 12
def grafana_svc : Nat := 13
def slo_dash : Nat := 14
def service_dash : Nat := 15
def otel_collector : Nat := 16
def jaeger_collector : Nat := 17
def jaeger_query : Nat := 18
def jaeger_svc : Nat := 19
def fluentbit : Nat := 20
def loki : Nat := 21
def loki_svc : Nat := 22
def logs_bucket : Nat := 23

def cmdsA : List Cmd := [
  .node "SRE Team" "User",
  .node "Developers" "User",
  .node "Business Analysts" "Client",
  .copen "Microservice Instrumentation",
  .node "User Service" "Nodejs",
  .node "Order Service" "Nodejs",
  .node "Product Service" "Nodejs",
  .node "Payment Service" "Nodejs",
  .cclose,
  .copen "Monitoring & Alerting (PGA Stack)",
  .copen "Metrics Collection & Storage",
  .node "Prometheus" "Prometheus",
  .node "Alertmanager" "Prometheus",
  .node "Prometheus StatefulSet" "StatefulSet",
  .node "Prometheus Service" "Service",
  .link prometheus prom_stateful "",
  .link prometheus prom_service "",
  .link prometheus prom_am "",
  .cclose,
  .copen "Visualization",
  .node "Grafana" "Grafana",
  .node "Grafana Deployment" "Deployment",
  .node "Grafana Service" "Service",
  .link grafana grafana_deploy "",
  .link grafana grafana_svc "",
  .cclose,
  .node "SLO Dashboards" "Grafana",
  .node "Service Dashboards" "Grafana",
  .edge grafana slo_dash "",
  .edge grafana service_dash "",
  .cclose,
  .copen "Distributed Tracing (OpenTelemetry)",
  .node "OpenTelemetry Collector" "Deployment",
  .copen "Trace Storage & Visualization",
  .node "Jaeger Collector" "Jaeger",
  .node "Jaeger Query" "Jaeger"]


def cmdsB : List Cmd := [
  .node "Jaeger Service" "Service",
  .link jaeger_collector jaeger_query "",
  .link jaeger_query jaeger_svc "",
  .cclose,
  .cclose,
  .copen "Logging Infrastructure",
  .node "FluentBit DaemonSet" "FluentBit",
  .node "Loki" "Loki",
  .node "Loki Service" "Service",
  .node "Log Archives" "S3",
  .edge fluentbit loki "",
  .link loki loki_svc "",
  .edge loki logs_bucket "",
  .cclose,
  .edge prometheus otel_collector "scrapes metrics",
  .edge user_svc prometheus "metrics",
  .edge user_svc otel_collector "traces",
  .edge user_svc fluentbit "logs",
  .edge order_svc prometheus "metrics",
  .edge order_svc otel_collector "traces",
  .edge order_svc fluentbit "logs",
  .edge product_svc prometheus "metrics",
  .edge product_svc otel_collector "traces",
  .edge product_svc fluentbit "logs",
  .edge payment_svc prometheus "metrics",
  .edge payment_svc otel_collector "traces",
  .edge payment_svc fluentbit "logs",
  .edge otel_collector jaeger_collector "",
  .edge sre grafana "",
  .edge sre prom_am "",
  .edge developer jaeger_query "",
  .edgeRev prometheus grafana "data source",
  .edgeRev loki grafana "data source",
  .edgeRev jaeger_query grafana "data source",
  .edge business service_dash ""]

def cmds : List Cmd := cmdsA ++ cmdsB

def state : DiagramState := run cmds

end Observability

namespace AwsEks

/-- Transcription of aws_eks_deployment_diagram.py.  The for-loops over
worker nodes, pods and service deployments are unrolled in source order; the
nodes_group binding constructs its cluster inside the Worker Nodes scope and
the following with-statement enters it, which is the same sequence of scope
operations as an inline with-statement.  The command list is split in two
parts only to keep elaboration fast. -/
def user : Nat := 0
def ecr : Nat := 1
def s3_config_backups : Nat := 2
def github_actions : Nat := 3
def igw : Nat := 4
def nat_gw : Nat := 5
def alb : Nat := 6
def eks_control_plane : Nat := 7
def worker1 : Nat := 8
def worker2 : Nat := 9
def worker3 : Nat := 10
def prometheus : Nat := 11
def grafana : Nat := 12
def alertmanager : Nat := 13
def jaeger_collector : Nat := 14
def jaeger_query : Nat := 15
def fluentd_ds : Nat := 16
def user_svc_deploy : Nat := 17
def user_pod1 : Nat := 18
def user_pod2 : Nat := 19
def user_svc_service : Nat := 20
def user_svc_hpa : Nat := 21
def user_nestjs1 : Nat := 22
def user_nestjs2 : Nat := 23
def product_svc_deploy : Nat := 24
def product_pod1 : Nat := 25
def product_pod2 : Nat := 26
def product_svc_service : Nat := 27
def product_svc_hpa : Nat := 28
def product_nestjs1 : Nat := 29
def product_nestjs2 : Nat := 30
def order_svc_deploy : Nat := 31
def order_pod1 : Nat := 32
def order_pod2 : Nat := 33
def order_svc_service : Nat := 34
def order_svc_hpa : Nat := 35
def order_nestjs1 : Nat := 36
def order_nestjs2 : Nat := 37
def rabbitmq_sts : Nat := 38
def rabbitmq_pod1 : Nat := 39
def rabbitmq_pod2 : Nat := 40
def rabbitmq_service : Nat := 41
def kube_api : Nat := 42
def config_maps : Nat := 43
def secrets : Nat := 44
def user_db : Nat := 45
def product_db : Nat := 46
def order_db : Nat := 47
def cache_redis : Nat := 48

def cmdsA : List Cmd := [
  .node "End User (Web/Mobile)" "User",
  .copen "AWS Cloud",
  .copen "Region (e.g., us-east-1)",
  .node "Elastic Container Registry" "ECR",
  .node "Config/Backups" "S3",
  .node "GitHub Actions CI/CD" "GithubActions",
  .copen "VPC",
  .node "Internet Gateway" "InternetGateway",
  .node "NAT Gateway" "NATGateway",
  .copen "Public Subnets",
  .node "Application Load Balancer" "ELB",
  .cclose,
  .copen "Private Subnets",
  .copen "EKS Cluster (Managed Kubernetes)",
  .node "EKS Control Plane" "EKS",
  .copen "Kubernetes Worker Nodes (EC2 Instances)",
  .copen "Nodes Group",
  .node "Worker Node 1" "EC2",
  .node "Worker Node 2" "EC2",
  .node "Worker Node 3" "EC2",
  .cclose,
  .copen "Observability Stack",
  .node "Prometheus" "Prometheus",
  .node "Grafana" "Grafana",
  .node "Alertmanager" "Prometheus",
  .node "Jaeger Collector" "Jaeger",
  .node "Jaeger Query" "Jaeger",
  .node "FluentBit DaemonSet" "Deployment",
  .edge worker1 fluentd_ds "logs",
  .edge worker2 fluentd_ds "logs",
  .edge worker3 fluentd_ds "logs",
  .fanOut eks_control_plane [prometheus, grafana, jaeger_query] "",
  .cclose,
  .copen "Core Services Namespace",
  .copen "User Service",
  .node "Deployment" "Deployment",
  .node "Pod 1" "Pod",
  .node "Pod 2" "Pod",
  .node "Service (ClusterIP)" "Service",
  .node "HPA" "HPA",
  .fanOut user_svc_deploy [user_pod1, user_pod2] "",
  .edge user_svc_service user_svc_deploy "",
  .edge user_svc_deploy user_svc_hpa "",
  .copen "Pod 1",
  .node "NestJS App" "Nodejs"]

def cmdsA2 : List Cmd := [
  .link user_pod1 user_nestjs1 "",
  .cclose,
  .copen "Pod 2",
  .node "NestJS App" "Nodejs",
  .link user_pod2 user_nestjs2 "",
  .cclose,
  .cclose,
  .copen "Product Service",
  .node "Deployment" "Deployment",
  .node "Pod 1" "Pod",
  .node "Pod 2" "Pod",
  .node "Service (ClusterIP)" "Service",
  .node "HPA" "HPA",
  .fanOut product_svc_deploy [product_pod1, product_pod2] "",
  .edge product_svc_service product_svc_deploy "",
  .edge product_svc_deploy product_svc_hpa "",
  .copen "Pod 1",
  .node "NestJS App" "Nodejs",
  .link product_pod1 product_nestjs1 "",
  .cclose,
  .copen "Pod 2",
  .node "NestJS App" "Nodejs",
  .link product_pod2 product_nestjs2 "",
  .cclose,
  .cclose,
  .copen "Order Service",
  .node "Deployment" "Deployment",
  .node "Pod 1" "Pod",
  .node "Pod 2" "Pod",
  .node "Service (ClusterIP)" "Service",
  .node "HPA" "HPA",
  .fanOut order_svc_deploy [order_pod1, order_pod2] "",
  .edge order_svc_service order_svc_deploy "",
  .edge order_svc_deploy order_svc_hpa "",
  .copen "Pod 1",
  .node "NestJS App" "Nodejs",
  .link order_pod1 order_nestjs1 "",
  .cclose,
  .copen "Pod 2",
  .node "NestJS App" "Nodejs",
  .link order_pod2 order_nestjs2 "",
  .cclose,
  .cclose,
  .cclose]

def cmdsB : List Cmd := [
  .copen "Messaging Namespace",
  .copen "RabbitMQ Cluster",
  .node "StatefulSet" "StatefulSet",
  .node "Pod 1" "Pod",
  .node "Pod 2" "Pod",
  .node "Service (Headless)" "Service",
  .fanOut rabbitmq_sts [rabbitmq_pod1, rabbitmq_pod2] "",
  .edge rabbitmq_service rabbitmq_sts "",
  .cclose,
  .cclose,
  .copen "Kubernetes System & Config",
  .node "Kube API Server (Control Plane)" "APIServer",
  .node "ConfigMaps" "StorageClass",
  .node "Sealed Secrets" "StorageClass",
  .link eks_control_plane kube_api "",
  .cclose,
  .cclose,
  .cclose,
  .copen "Databases (Managed AWS Services)",
  .node "User DB (Postgres)" "RDS",
  .node "Product DB (Postgres)" "RDS",
  .node "Order DB (Postgres)" "RDS",
  .node "Cache (Redis)" "ElastiCache",
  .cclose,
  .edge user alb "",
  .fanOut alb [user_svc_service, product_svc_service, order_svc_service] "",
  .edge igw alb "",
  .edgeRev nat_gw worker1 "egress",
  .edgeRev nat_gw worker2 "egress",
  .edgeRev nat_gw worker3 "egress",
  .edge user_svc_deploy user_db "reads/writes",
  .edge user_svc_deploy cache_redis "reads/writes",
  .edge product_svc_deploy product_db "reads/writes",
  .edge order_svc_deploy order_db "reads/writes",
  .edge order_svc_deploy user_svc_service "K8s DNS",
  .edge order_svc_deploy product_svc_service "K8s DNS",
  .edge user_svc_deploy rabbitmq_service "AMQP",
  .edge user_svc_deploy prometheus "metrics",
  .edge user_svc_deploy jaeger_collector "traces",
  .edge user_svc_deploy config_maps "uses",
  .edge user_svc_deploy secrets "uses",
  .edge product_svc_deploy rabbitmq_service "AMQP",
  .edge product_svc_deploy prometheus "metrics",
  .edge product_svc_deploy jaeger_collector "traces",
  .edge product_svc_deploy config_maps "uses",
  .edge product_svc_deploy secrets "uses",
  .edge order_svc_deploy rabbitmq_service "AMQP",
  .edge order_svc_deploy prometheus "metrics",
  .edge order_svc_deploy jaeger_collector "traces",
  .edge order_svc_deploy config_maps "uses",
  .edge order_svc_deploy secrets "uses",
  .cclose,
  .cclose,
  .cclose,
  .cclose,
  .edge github_actions ecr "docker push",
  .edge github_actions eks_control_plane "kubectl apply/helm upgrade",
  .edge ecr worker1 "docker pull",
  .edge ecr worker2 "docker pull",
  .edge ecr worker3 "docker pull"]

def cmds : List Cmd := cmdsA ++ cmdsA2 ++ cmdsB

def state : DiagramState := run cmds

end AwsEks

namespace MultiEnv

/-- Transcription of multi_environment_deployment_diagram.py. -/
def developers : Nat := 0
def qa_team : Nat := 1
def business : Nat := 2
def customers : Nat := 3
def cicd : Nat := 4
def dev_vpc : Nat := 5
def dev_eks : Nat := 6
def dev_user_svc : Nat := 7
def dev_order_svc : Nat := 8
def dev_product_svc : Nat := 9
def dev_rabbitmq : Nat := 10
def dev_monitoring : Nat := 11
def dev_dbs : Nat := 12
def dev_cache : Nat := 13
def dev_elb : Nat := 14
def stage_vpc : Nat := 15
def stage_eks : Nat := 16
def stage_user_svc : Nat := 17
def stage_order_svc : Nat := 18
def stage_product_svc : Nat := 19
def stage_rabbitmq : Nat := 20
def stage_monitoring : Nat := 21
def stage_tracing : Nat := 22
def stage_dbs : Nat := 23
def stage_cache : Nat := 24
def stage_elb : Nat := 25
def prod_vpc : Nat := 26
def prod_eks : Nat := 27
def prod_user_svc : Nat := 28
def prod_order_svc : Nat := 29
def prod_product_svc : Nat := 30
def prod_rabbitmq : Nat := 31
def prod_monitoring : Nat := 32
def prod_tracing : Nat := 33
def prod_logging : Nat := 34
def prod_dbs : Nat := 35
def prod_cache : Nat := 36
def prod_elb : Nat := 37
def prod_backup : Nat := 38
def prod_secrets : Nat := 39

def cmdsA : List Cmd := [
  .node "Developers" "User",
  .node "QA Team" "User",
  .node "Business Users" "User",
  .node "Customers" "Client",
  .copen "CI/CD Pipeline",
  .node "GitHub Actions" "GithubActions",
  .cclose,
  .copen "Development Environment",
  .copen "AWS Dev Account",
  .node "Dev VPC" "VPC",
  .copen "Dev EKS Cluster (Small)",
  .node "Dev EKS" "EKS",
  .copen "Dev Namespace: Core",
  .node "User Service (1 replica)" "Deployment",
  .node "Order Service (1 replica)" "Deployment",
  .node "Product Service (1 replica)" "Deployment",
  .cclose,
  .copen "Dev Namespace: Infrastructure",
  .node "RabbitMQ (1 node)" "StatefulSet",
  .node "Prometheus (minimal)" "Prometheus",
  .cclose,
  .cclose,
  .node "Shared Dev DB (Small)" "RDS",
  .node "Dev Cache (t3.small)" "ElastiCache",
  .node "Dev Internal ALB" "ELB",
  .cclose,
  .cclose,
  .copen "Staging Environment",
  .copen "AWS Staging Account",
  .node "Staging VPC" "VPC",
  .copen "Staging EKS Cluster (Medium)"]


def cmdsB : List Cmd := [
  .node "Staging EKS" "EKS",
  .copen "Staging Namespace: Core",
  .node "User Service (2 replicas)" "Deployment",
  .node "Order Service (2 replicas)" "Deployment",
  .node "Product Service (2 replicas)" "Deployment",
  .cclose,
  .copen "Staging Namespace: Infrastructure",
  .node "RabbitMQ (3 nodes)" "StatefulSet",
  .node "Full Monitoring Stack" "Prometheus",
  .node "Jaeger Tracing" "Jaeger",
  .cclose,
  .cclose,
  .node "Staging DB (Medium)" "RDS",
  .node "Staging Cache (m5.large)" "ElastiCache",
  .node "Staging ALB" "ELB",
  .cclose,
  .cclose,
  .copen "Production Environment",
  .copen "AWS Production Account",
  .node "Production VPC" "VPC",
  .copen "Production EKS Cluster (Large)",
  .node "Production EKS" "EKS",
  .copen "Production Namespace: Core",
  .node "User Service (3+ replicas, HPA)" "Deployment",
  .node "Order Service (3+ replicas, HPA)" "Deployment",
  .node "Product Service (3+ replicas, HPA)" "Deployment",
  .cclose,
  .copen "Production Namespace: Infrastructure",
  .node "RabbitMQ (3+ nodes)" "StatefulSet",
  .node "Full Monitoring + Alerting" "Prometheus",
  .node "Distributed Tracing" "Jaeger"]


def cmdsC : List Cmd := [
  .node "Centralized Logging" "FluentBit",
  .cclose,
  .cclose,
  .node "Production DB Cluster (m5.xlarge)" "RDS",
  .node "Production Cache Cluster" "ElastiCache",
  .node "Production ALB with WAF" "ELB",
  .node "Backup Bucket" "S3",
  .node "Enhanced Secrets" "SecretsManager",
  .cclose,
  .cclose,
  .edge developers dev_elb "",
  .edge developers stage_elb "",
  .edge qa_team stage_elb "",
  .edge business stage_elb "",
  .edge customers prod_elb "",
  .edge cicd dev_eks "continuous deployment",
  .edge cicd stage_eks "on approved PR",
  .edge cicd prod_eks "manual release",
  .edge dev_user_svc dev_dbs "",
  .edge dev_user_svc dev_cache "",
  .edge dev_order_svc dev_rabbitmq "",
  .edge stage_user_svc stage_dbs "",
  .edge stage_user_svc stage_cache "",
  .edge stage_order_svc stage_rabbitmq "",
  .edge prod_user_svc prod_dbs "",
  .edge prod_user_svc prod_cache "",
  .edge prod_order_svc prod_rabbitmq "",
  .edge prod_dbs prod_backup "",
  .link dev_vpc stage_vpc "isolated",
  .link stage_vpc prod_vpc "isolated"]

def cmds : List Cmd := cmdsA ++ cmdsB ++ cmdsC

def state : DiagramState := run cmds

end MultiEnv

namespace DisasterRecovery

/-- Transcription of disaster_recovery_deployment_diagram.py.  The two
for-loops over the service lists are unrolled; the db_replication binding
holds an Edge object that the later chain statement consumes. -/
def users : Nat := 0
def internet : Nat := 1
def dns : Nat := 2
def cdn : Nat := 3
def static_content : Nat := 4
def waf : Nat := 5
def primary_vpc : Nat := 6
def primary_alb : Nat := 7
def primary_eks : Nat := 8
def primary_user_svc : Nat := 9
def primary_order_svc : Nat := 10
def primary_product_svc : Nat := 11
def primary_payment_svc : Nat := 12
def primary_service_mesh : Nat := 13
def primary_db : Nat := 14
def primary_db_replica : Nat := 15
def primary_cache : Nat := 16
def primary_rabbit : Nat := 17
def primary_monitor : Nat := 18
def primary_scaling : Nat := 19
def dr_vpc : Nat := 20
def dr_alb : Nat := 21
def dr_eks : Nat := 22
def dr_user_svc : Nat := 23
def dr_order_svc : Nat := 24
def dr_product_svc : Nat := 25
def dr_payment_svc : Nat := 26
def dr_service_mesh : Nat := 27
def dr_db : Nat := 28
def dr_cache : Nat := 29
def dr_rabbit : Nat := 30
def dr_monitor : Nat := 31
def dr_scaling : Nat := 32
def s3_backup : Nat := 33
def events : Nat := 34
def failover : Nat := 35

def cmdsA : List Cmd := [
  .node "Global Users" "Users",
  .node "Internet" "Internet",
  .copen "Global AWS Resources",
  .node "Route53 with Health Checks" "Route53",
  .node "CloudFront CDN" "CloudFront",
  .node "S3 - Static Content" "S3",
  .node "WAF" "WAF",
  .cclose,
  .copen "Primary Region (us-east-1)",
  .copen "Primary Infrastructure",
  .node "Primary VPC" "VPC",
  .node "Primary ALB" "ELB",
  .copen "Primary EKS Cluster",
  .node "Primary EKS" "EKS",
  .copen "Primary Microservices",
  .node "User Service (Active)" "Deployment",
  .node "Order Service (Active)" "Deployment",
  .node "Product Service (Active)" "Deployment",
  .node "Payment Service (Active)" "Deployment",
  .node "Service Mesh" "Service",
  .edge primary_user_svc primary_service_mesh "",
  .edge primary_order_svc primary_service_mesh "",
  .edge primary_product_svc primary_service_mesh "",
  .edge primary_payment_svc primary_service_mesh "",
  .cclose,
  .cclose,
  .copen "Primary Data Storage",
  .node "Aurora Primary Cluster" "Aurora",
  .node "Aurora Read Replica" "Aurora",
  .node "ElastiCache (Redis Cluster)" "ElastiCache",
  .node "RabbitMQ - Primary" "MQ",
  .edge primary_db primary_db_replica "sync replication",
  .cclose,
  .node "CloudWatch Primary" "Cloudwatch",
  .node "AutoScaling" "AutoScaling",
  .cclose,
  .cclose,
  .copen "DR Region (us-west-2)",
  .copen "DR Infrastructure",
  .node "DR VPC" "VPC",
  .node "DR ALB (Standby)" "ELB",
  .copen "DR EKS Cluster",
  .node "DR EKS" "EKS",
  .copen "DR Microservices"]


def cmdsB : List Cmd := [
  .node "User Service (Standby)" "Deployment",
  .node "Order Service (Standby)" "Deployment",
  .node "Product Service (Standby)" "Deployment",
  .node "Payment Service (Standby)" "Deployment",
  .node "Service Mesh" "Service",
  .edge dr_user_svc dr_service_mesh "",
  .edge dr_order_svc dr_service_mesh "",
  .edge dr_product_svc dr_service_mesh "",
  .edge dr_payment_svc dr_service_mesh "",
  .cclose,
  .cclose,
  .copen "DR Data Storage",
  .node "Aurora DR Cluster" "Aurora",
  .node "ElastiCache (Redis Cluster)" "ElastiCache",
  .node "RabbitMQ - DR" "MQ",
  .cclose,
  .node "CloudWatch DR" "Cloudwatch",
  .node "AutoScaling" "AutoScaling",
  .cclose,
  .cclose,
  .copen "Cross-Region Resources",
  .node "Cross-Region Backup Bucket" "S3",
  .node "SNS for Cross-Region Events" "SNS",
  .node "R53 Failover" "Route53",
  .edge primary_db dr_db "async replication",
  .edge primary_rabbit dr_rabbit "mirror queue",
  .edge primary_db s3_backup "backup",
  .edge s3_backup dr_db "restore if needed",
  .cclose,
  .edge users internet "",
  .edge internet dns "",
  .edge dns cdn "",
  .edge cdn static_content "",
  .edge dns waf "active",
  .edge waf primary_alb "",
  .edge primary_alb primary_eks "",
  .edge dns dr_alb "standby",
  .edge primary_monitor events "",
  .edge dr_monitor events "",
  .edge events failover "",
  .edge failover dns "failover trigger",
  .edge primary_monitor primary_user_svc "health check",
  .edge dr_monitor dr_user_svc "health check"]

def cmds : List Cmd := cmdsA ++ cmdsB

def state : DiagramState := run cmds

end DisasterRecovery

namespace CicdPipeline

/-- Transcription of cicd_pipeline_diagram.py.  The approver node is
constructed near the end of the script, outside every cluster. -/
def developer : Nat := 0
def repo : Nat := 1
def pr : Nat := 2
def code : Nat := 3
def main : Nat := 4
def ci_workflow : Nat := 5
def unit_tests : Nat := 6
def integration_tests : Nat := 7
def static_analysis : Nat := 8
def linter : Nat := 9
def build : Nat := 10
def sast : Nat := 11
def dependency_check : Nat := 12
def secrets_scan : Nat := 13
def cd_workflow : Nat := 14
def ecr : Nat := 15
def version : Nat := 16
def helm : Nat := 17
def deploy_dev : Nat := 18
def deploy_stage : Nat := 19
def deploy_prod : Nat := 20
def dev : Nat := 21
def staging : Nat := 22
def prod : Nat := 23
def approver : Nat := 24

def cmdsA : List Cmd := [
  .node "Developer" "User",
  .copen "Source Code Management",
  .node "GitHub Repository" "Github",
  .node "Pull Request" "Github",
  .node "Feature Branch" "Git",
  .node "Main Branch" "Git",
  .edge developer code "",
  .edge code pr "",
  .edge pr main "",
  .edge main repo "",
  .cclose,
  .copen "CI/CD Pipeline (GitHub Actions)",
  .copen "Continuous Integration",
  .node "CI Workflow" "GithubActions",
  .copen "Build & Test",
  .node "Unit Tests" "GithubActions",
  .node "Integration Tests" "GithubActions",
  .node "Static Analysis" "GithubActions",
  .node "Linter" "GithubActions",
  .node "Build Container" "Docker",
  .cclose,
  .copen "Security Checks",
  .node "SAST Scan" "GithubActions",
  .node "Dependency Scan" "GithubActions",
  .node "Secrets Scan" "GithubActions",
  .cclose,
  .edge ci_workflow unit_tests "",
  .edge ci_workflow integration_tests "",
  .edge ci_workflow static_analysis "",
  .edge ci_workflow linter "",
  .edge ci_workflow build "",
  .edge ci_workflow dependency_check "",
  .edge ci_workflow sast "",
  .edge ci_workflow secrets_scan ""]


def cmdsB : List Cmd := [
  .cclose,
  .copen "Continuous Delivery",
  .node "CD Workflow" "GithubActions",
  .copen "Artifact Creation & Storage",
  .node "Container Registry" "ECR",
  .node "Semantic Versioning" "GithubActions",
  .cclose,
  .copen "Deployment",
  .node "Helm Charts" "Helm",
  .node "Deploy to Dev" "GithubActions",
  .node "Deploy to Staging" "GithubActions",
  .node "Deploy to Production" "GithubActions",
  .cclose,
  .edge cd_workflow version "",
  .edge build ecr "",
  .edge cd_workflow helm "",
  .edge cd_workflow deploy_dev "",
  .edge deploy_dev deploy_stage "",
  .edge deploy_stage deploy_prod "",
  .cclose,
  .cclose,
  .copen "Kubernetes Environments",
  .node "Development" "EKS",
  .node "Staging" "EKS",
  .node "Production" "EKS",
  .edge deploy_dev dev "",
  .edge deploy_stage staging "",
  .edge deploy_prod prod "",
  .cclose,
  .edge pr ci_workflow "triggers",
  .edge main cd_workflow "triggers",
  .node "Release Manager" "Client",
  .edge approver deploy_prod "approves"]

def cmds : List Cmd := cmdsA ++ cmdsB

def state : DiagramState := run cmds

end CicdPipeline

/-- Full list of the sixteen scripts' transcriptions, used by script-wide
claims. -/
def allScriptCmds : List (List Cmd) := [
  C1Ctx.cmds, C2Container.cmds, C3Search.cmds, C3Notif.cmds, C3User.cmds,
  C3Inventory.cmds, C3Product.cmds, C3Payment.cmds, C3Order.cmds,
  DataFlow.cmds, CommPatterns.cmds, Observability.cmds, AwsEks.cmds,
  MultiEnv.cmds, DisasterRecovery.cmds, CicdPipeline.cmds]

/-- Command-line arguments and process environment that a script run could
in principle observe. -/
structure Env where
  argv : List String
  vars : List (String × String)

/-- Each script as a function of its invocation environment.  Every source
file is a straight-line module that mentions neither sys.argv nor os.environ
nor any configuration file, so each transcription is a constant function of
the environment. -/
def c1ContextProgram : Env → List Cmd := fun _ => C1Ctx.cmds
def c2ContainerProgram : Env → List Cmd := fun _ => C2Container.cmds
def c3SearchProgram : Env → List Cmd := fun _ => C3Search.cmds
def c3NotifProgram : Env → List Cmd := fun _ => C3Notif.cmds
def c3UserProgram : Env → List Cmd := fun _ => C3User.cmds
def c3InventoryProgram : Env → List Cmd := fun _ => C3Inventory.cmds
def c3ProductProgram : Env → List Cmd := fun _ => C3Product.cmds
def c3PaymentProgram : Env → List Cmd := fun _ => C3Payment.cmds
def c3OrderProgram : Env → List Cmd := fun _ => C3Order.cmds
def dataFlowProgram : Env → List Cmd := fun _ => DataFlow.cmds
def commPatternsProgram : Env → List Cmd := fun _ => CommPatterns.cmds
def observabilityProgram : Env → List Cmd := fun _ => Observability.cmds
def awsEksProgram : Env → List Cmd := fun _ => AwsEks.cmds
def multiEnvProgram : Env → List Cmd := fun _ => MultiEnv.cmds
def disasterRecoveryProgram : Env → List Cmd := fun _ => DisasterRecovery.cmds
def cicdPipelineProgram : Env → List Cmd := fun _ => CicdPipeline.cmds

/-- All sixteen scripts as environment-consuming programs. -/
def allScriptPrograms : List (Env → List Cmd) := [
  c1ContextProgram, c2ContainerProgram, c3SearchProgram, c3NotifProgram,
  c3UserProgram, c3InventoryProgram, c3ProductProgram, c3PaymentProgram,
  c3OrderProgram, dataFlowProgram, commPatternsProgram, observabilityProgram,
  awsEksProgram, multiEnvProgram, disasterRecoveryProgram, cicdPipelineProgram]

/-- The lines each script prints after its `with Diagram` block exits.  The
five deployment scripts print nothing. -/
def c1ContextMsgs : List String :=
  ["Diagram \x27C1 E-Commerce Platform System Context Diagram\x27 was generated as \x27c1_system_context_diagram.jpg\x27"]
def c2ContainerMsgs : List String :=
  ["Diagram \x27C2 E-Commerce Platform Container Diagram\x27 was generated as \x27c2_container_diagram.jpg\x27"]
def c3SearchMsgs : List String :=
  ["Diagram \x27C3 Search Service Component Diagram\x27 was generated as \x27c3_search_service_diagram.jpg\x27"]
def c3NotifMsgs : List String :=
  ["Diagram \x27C3 Notification Service Component Diagram\x27 was generated as \x27c3_notification_service_diagram.jpg\x27"]
def c3UserMsgs : List String :=
  ["Diagram \x27C3 User Service Component Diagram\x27 was generated as \x27c3_user_service_diagram.jpg\x27"]
def c3InventoryMsgs : List String :=
  ["Diagram \x27C3 Inventory Service Component Diagram\x27 was generated as \x27c3_inventory_service_diagram.jpg\x27"]
def c3ProductMsgs : List String :=
  ["Diagram \x27C3 Product Service Component Diagram\x27 was generated as \x27c3_product_service_diagram.jpg\x27"]
def c3PaymentMsgs : List String :=
  ["Diagram \x27C3 Payment Service Component Diagram\x27 was generated as \x27c3_payment_service_diagram.jpg\x27"]
def c3OrderMsgs : List String :=
  ["Diagram \x27C3 Order Service Component Diagram\x27 was generated as \x27c3_order_service_diagram.jpg\x27"]
def dataFlowMsgs : List String := [
  "Enhanced diagram \x27E-Commerce Platform Data Flow Diagram\x27 generation initiated. Output: \x27data_flow_diagram.jpg\x27",
  "\nKey enhancements:",
  "- Left-to-right layout for better flow visualization",
  "- Functional clustering of related processes",
  "- Styled nodes with distinctive shapes and colors",
  "- Simplified, more readable connection labels",
  "- Added event flow as a distinct connection type",
  "- Improved background colors and contrast",
  "- Better spacing and organization of components"]
def commPatternsMsgs : List String :=
  ["Diagram \x27Communication Styles and Patterns\x27 was generated as \x27communication_styles_patterns_diagram.jpg\x27"]

/-- The sixteen scripts paired with the lines they print after the diagram
context exits. -/
def allScriptRuns : List (List Cmd × List String) := [
  (C1Ctx.cmds, c1ContextMsgs), (C2Container.cmds, c2ContainerMsgs),
  (C3Search.cmds, c3SearchMsgs), (C3Notif.cmds, c3NotifMsgs),
  (C3User.cmds, c3UserMsgs), (C3Inventory.cmds, c3InventoryMsgs),
  (C3Product.cmds, c3ProductMsgs), (C3Payment.cmds, c3PaymentMsgs),
  (C3Order.cmds, c3OrderMsgs), (DataFlow.cmds, dataFlowMsgs),
  (CommPatterns.cmds, commPatternsMsgs), (Observability.cmds, []),
  (AwsEks.cmds, []), (MultiEnv.cmds, []),
  (DisasterRecovery.cmds, []), (CicdPipeline.cmds, [])]

/-- Modelled from the spec: the render step of the third-party backend, which
is not part of src/.  Section 4.3 of the spec describes it as consuming the
complete assembled diagram and producing one output file, with no retry or
partial-failure handling; it is represented as an arbitrary function from
the assembled state to either the produced file content or a failure. -/
def RenderFn : Type := DiagramState → Except String String

/-- Top-level behaviour of one script: the body of the `with Diagram` block
assembles the graph; on context exit the backend renders it; the trailing
print statements execute only after the context exits normally.  The sources
contain no try/except, so a render failure is returned unhandled and the
messages are never produced. -/
def scriptMain (render : RenderFn) (cmds : List Cmd) (msgs : List String) :
    Except String (String × List String) :=
  match render (run cmds) with
  | .error e => .error e
  | .ok o => .ok (o, msgs)

/-- Modelled from the spec: "invoking export twice with the same diagram
object must not mutate the diagram and must produce two structurally
identical output files" concerns the backend's export step, which is not
part of src/; the spec describes the output file as a function of the
assembled diagram (nodes, edges, clusters, global configuration) and the
export as leaving the in-memory diagram unchanged.  `renderExport` returns
the unchanged diagram together with the produced file content. -/
def renderExport (render : DiagramState → String) (s : DiagramState) :
    DiagramState × String :=
  (s, render s)

theorem foldl_addEdge_edges (a : Nat) (l : String) (bs : List Nat)
    (s : DiagramState) :
    (bs.foldl (fun t b => addEdge a b l true t) s).edges =
      s.edges ++ bs.map (fun b => EdgeDecl.mk a b l true) := by
  induction bs generalizing s with
  | nil => simp
  | cons b bs ih =>
      rw [List.foldl_cons, ih]
      simp [addEdge]

theorem foldl_addEdge_clusters (a : Nat) (l : String) (bs : List Nat)
    (s : DiagramState) :
    (bs.foldl (fun t b => addEdge a b l true t) s).clusters = s.clusters := by
  induction bs generalizing s with
  | nil => rfl
  | cons b bs ih => rw [List.foldl_cons, ih]; rfl

theorem foldl_addEdge_stack (a : Nat) (l : String) (bs : List Nat)
    (s : DiagramState) :
    (bs.foldl (fun t b => addEdge a b l true t) s).stack = s.stack := by
  induction bs generalizing s with
  | nil => rfl
  | cons b bs ih => rw [List.foldl_cons, ih]; rfl

theorem stackOk_step (s : DiagramState) (c : Cmd) (h : StackOk s) :
    StackOk (step s c) := by
  cases c with
  | node l cat => exact fun i hi => h i hi
  | copen n =>
      intro i hi
      have hlen : (step s (.copen n)).clusters.length = s.clusters.length + 1 := by
        simp [step, clusterOpen]
      rw [hlen]
      rcases List.mem_cons.mp hi with h1 | hmem
      · omega
      · have := h i hmem
        omega
  | cclose => exact fun i hi => h i (List.mem_of_mem_tail hi)
  | edge a b l => exact fun i hi => h i hi
  | edgeRev a b l => exact fun i hi => h i hi
  | fanOut a bs l =>
      intro i hi
      rw [show (step s (.fanOut a bs l)).stack = s.stack from
        foldl_addEdge_stack a l bs s] at hi
      rw [show (step s (.fanOut a bs l)).clusters = s.clusters from
        foldl_addEdge_clusters a l bs s]
      exact h i hi
  | link a b l => exact fun i hi => h i hi

theorem parentsOk_step (s : DiagramState) (c : Cmd) (hs : StackOk s)
    (h : ParentsOk s) : ParentsOk (step s c) := by
  cases c with
  | node l cat => exact fun cl hcl p hp => h cl hcl p hp
  | copen n =>
      intro cl hcl p hp
      rcases List.mem_append.mp hcl with hold | hnew
      · exact h cl hold p hp
      · have hcl2 : cl = ⟨s.clusters.length, n, s.stack.head?⟩ := by
          simpa using hnew
        subst hcl2
        change s.stack.head? = some p at hp
        change p < s.clusters.length
        cases hstk : s.stack with
        | nil => rw [hstk] at hp; simp at hp
        | cons top rest =>
            rw [hstk] at hp
            simp at hp
            subst hp
            exact hs top (by rw [hstk]; exact List.mem_cons_self top rest)
  | cclose => exact fun cl hcl p hp => h cl hcl p hp
  | edge a b l => exact fun cl hcl p hp => h cl hcl p hp
  | edgeRev a b l => exact fun cl hcl p hp => h cl hcl p hp
  | fanOut a bs l =>
      intro cl hcl p hp
      rw [show (step s (.fanOut a bs l)).clusters = s.clusters from
        foldl_addEdge_clusters a l bs s] at hcl
      exact h cl hcl p hp
  | link a b l => exact fun cl hcl p hp => h cl hcl p hp

theorem idsIndexed_step (s : DiagramState) (c : Cmd) (h : IdsIndexed s) :
    IdsIndexed (step s c) := by
  cases c with
  | node l cat => exact h
  | copen n =>
      unfold IdsIndexed at h ⊢
      simp [step, clusterOpen, List.range_succ, h]
  | cclose => exact h
  | edge a b l => exact h
  | edgeRev a b l => exact h
  | fanOut a bs l =>
      unfold IdsIndexed at h ⊢
      rw [show (step s (.fanOut a bs l)).clusters = s.clusters from
        foldl_addEdge_clusters a l bs s]
      exact h
  | link a b l => exact h

theorem run_invariants (cmds : List Cmd) :
    ∀ s : DiagramState, StackOk s → ParentsOk s → IdsIndexed s →
      StackOk (cmds.foldl step s) ∧ ParentsOk (cmds.foldl step s) ∧
        IdsIndexed (cmds.foldl step s) := by
  induction cmds with
  | nil => exact fun s h1 h2 h3 => ⟨h1, h2, h3⟩
  | cons c cs ih =>
      intro s h1 h2 h3
      exact ih (step s c) (stackOk_step s c h1) (parentsOk_step s c h1 h2)
        (idsIndexed_step s c h3)

theorem stackOk_empty : StackOk DiagramState.empty := by
  intro i hi
  simp [DiagramState.empty] at hi

theorem parentsOk_empty : ParentsOk DiagramState.empty := by
  intro c hc
  simp [DiagramState.empty] at hc

theorem idsIndexed_empty : IdsIndexed DiagramState.empty := by
  simp [IdsIndexed, DiagramState.empty]

theorem parentsOk_run (cmds : List Cmd) : ParentsOk (run cmds) :=
  (run_invariants cmds .empty stackOk_empty parentsOk_empty idsIndexed_empty).2.1

theorem idsIndexed_run (cmds : List Cmd) : IdsIndexed (run cmds) :=
  (run_invariants cmds .empty stackOk_empty parentsOk_empty idsIndexed_empty).2.2

theorem directlyInside_lt (s : DiagramState) (h : ParentsOk s) :
    ∀ x y, directlyInside s x y → y < x := by
  intro x y hd
  have hd2 : ∃ c, c ∈ s.clusters ∧ c.id = x ∧ c.parent = some y := hd
  obtain ⟨c, hc, hid, hp⟩ := hd2
  subst hid
  exact h c hc y hp

theorem transGen_directlyInside_lt (s : DiagramState) (h : ParentsOk s)
    (x y : Nat) (ht : Relation.TransGen (directlyInside s) x y) : y < x := by
  induction ht with
  | single h1 => exact directlyInside_lt s h _ _ h1
  | tail _ h1 ih => exact Nat.lt_trans (directlyInside_lt s h _ _ h1) ih

/-- C1 (counterexample): the container script declares five edges into the
message broker but six edges out of it (lines 104 to 109 of the source
declare six consumption edges), so "exactly five inbound publish edges and
exactly five outbound consume edges" is false. -/
theorem c2_message_broker_not_five_in_five_out :
    ¬ (((C2Container.state.edges.filter
          (fun e => e.dst == C2Container.message_broker)).length = 5) ∧
       ((C2Container.state.edges.filter
          (fun e => e.src == C2Container.message_broker)).length = 5)) := by
  decide

/-- C1 (amended): in the container-diagram script, the message-broker node
has exactly five inbound publish edges (all labelled "Publishes ... event")
and exactly six outbound consume edges in the declared edge list. -/
theorem c2_message_broker_five_publish_in_six_consume_out :
    (C2Container.state.edges.filter
        (fun e => e.dst == C2Container.message_broker)) = [
      EdgeDecl.mk C2Container.order_service C2Container.message_broker
        "Publishes OrderCreated event" true,
      EdgeDecl.mk C2Container.payment_service C2Container.message_broker
        "Publishes PaymentProcessed event" true,
      EdgeDecl.mk C2Container.product_service C2Container.message_broker
        "Publishes ProductUpdated event" true,
      EdgeDecl.mk C2Container.inventory_service C2Container.message_broker
        "Publishes StockUpdated event" true,
      EdgeDecl.mk C2Container.user_service C2Container.message_broker
        "Publishes UserRegistered event" true] ∧
    ((C2Container.state.edges.filter
        (fun e => e.src == C2Container.message_broker)).length = 6) := by
  decide

/-- C2: running the system-context script declares exactly two actor nodes,
one system node inside the system cluster, and three external-system nodes,
and appends exactly the five directed edges customer to system, admin to
system, system to payment gateway, system to shipping provider, and system
to identity provider. -/
theorem c1_system_context_declared_graph :
    C1Ctx.state.nodes.length = 6 ∧
    (C1Ctx.state.nodes.filter (fun n => n.category == "User")).length = 2 ∧
    (C1Ctx.state.nodes.filter (fun n => n.cluster == some 0)).length = 1 ∧
    (C1Ctx.state.nodes.filter
      (fun n => n.cluster == none && !(n.category == "User"))).length = 3 ∧
    C1Ctx.state.edges = [
      EdgeDecl.mk C1Ctx.customer C1Ctx.ecommerce_system "Uses (HTTPS)" true,
      EdgeDecl.mk C1Ctx.admin_user C1Ctx.ecommerce_system "Manages (HTTPS)" true,
      EdgeDecl.mk C1Ctx.ecommerce_system C1Ctx.payment_gateway
        "Processes Payments Via (API/HTTPS)" true,
      EdgeDecl.mk C1Ctx.ecommerce_system C1Ctx.shipping_provider
        "Arranges Shipping Via (API)" true,
      EdgeDecl.mk C1Ctx.ecommerce_system C1Ctx.identity_provider
        "Authenticates Users Via (OAuth/SAML)" true] := by
  decide

/-- C3: for any nodes a, b, c of the same diagram state, the edge operator
appends exactly one directed edge from a to b to the edge list and evaluates
to the target node b, so that chaining a through b to c appends exactly the
two edges a to b and b to c. -/
theorem edge_operator_appends_edge_and_returns_target :
    ∀ (a b c : Nat) (l1 l2 : String) (s : DiagramState),
      (rshift a b l1 s).1 = b ∧
      (rshift a b l1 s).2.edges = s.edges ++ [EdgeDecl.mk a b l1 true] ∧
      (rshift (rshift a b l1 s).1 c l2 (rshift a b l1 s).2).2.edges =
        s.edges ++ [EdgeDecl.mk a b l1 true, EdgeDecl.mk b c l2 true] := by
  intro a b c l1 l2 s
  refine ⟨rfl, rfl, ?_⟩
  simp [rshift, addEdge]

/-- C4: in every script, every declared edge (in all sixteen transcriptions)
refers only to nodes constructed earlier in the same script's execution, and
in every final diagram state both endpoints of every edge are declared node
identifiers. -/
theorem all_script_edges_reference_previously_declared_nodes :
    allScriptCmds.all wfScript = true ∧
    allScriptCmds.all (fun cs => edgesResolve (run cs)) = true := by
  exact ⟨by decide, by decide⟩

/-- C5: in every script, the declared clusters form a tree under nesting:
cluster identifiers are unique, so each cluster carries exactly one parent
field, and no cluster contains itself directly or transitively. -/
theorem cluster_nesting_forms_a_tree :
    ∀ cmds ∈ allScriptCmds,
      (∀ c1 ∈ (run cmds).clusters, ∀ c2 ∈ (run cmds).clusters,
          c1.id = c2.id → c1 = c2) ∧
      (∀ i, ¬ Relation.TransGen (directlyInside (run cmds)) i i) := by
  intro cmds _
  constructor
  · have hidx := idsIndexed_run cmds
    unfold IdsIndexed at hidx
    have hn : ((run cmds).clusters.map (fun c => c.id)).Nodup := by
      rw [hidx]; exact List.nodup_range _
    exact fun c1 h1 c2 h2 he => List.inj_on_of_nodup_map hn h1 h2 he
  · intro i hti
    exact absurd
      (transGen_directlyInside_lt (run cmds) (parentsOk_run cmds) i i hti)
      (Nat.lt_irrefl i)

theorem cluster_nesting_forms_a_tree_witness :
    (∀ c1 ∈ (run AwsEks.cmds).clusters, ∀ c2 ∈ (run AwsEks.cmds).clusters,
        c1.id = c2.id → c1 = c2) ∧
    (∀ i, ¬ Relation.TransGen (directlyInside (run AwsEks.cmds)) i i) :=
  cluster_nesting_forms_a_tree AwsEks.cmds (by simp [allScriptCmds])

/-- C6: exporting a fully assembled diagram leaves it unchanged, and
exporting the unchanged diagram a second time again leaves it unchanged and
produces structurally identical output. -/
theorem export_twice_preserves_diagram_and_output :
    ∀ (render : DiagramState → String) (s : DiagramState),
      (renderExport render s).1 = s ∧
      (renderExport render (renderExport render s).1).1 = s ∧
      (renderExport render (renderExport render s).1).2 =
        (renderExport render s).2 :=
  fun _ _ => ⟨rfl, rfl, rfl⟩

/-- C7: every script's declared logical graph is the same for any two
invocation environments (command-line arguments and environment variables):
no script consumes either. -/
theorem declared_graph_independent_of_cli_and_environment :
    ∀ p ∈ allScriptPrograms, ∀ e1 e2 : Env, run (p e1) = run (p e2) := by
  intro p hp e1 e2
  fin_cases hp <;> rfl

theorem declared_graph_independent_of_cli_and_environment_witness :
    run (c1ContextProgram ⟨["--fast"], [("HOME", "/tmp")]⟩) =
      run (c1ContextProgram ⟨[], []⟩) :=
  declared_graph_independent_of_cli_and_environment c1ContextProgram
    (by simp [allScriptPrograms]) ⟨["--fast"], [("HOME", "/tmp")]⟩ ⟨[], []⟩

/-- C8: for every script, a failure of the render step on context exit is
returned unhandled (there is no handler, retry, or recovery path in the
model, mirroring the sources) and the trailing messages are not produced;
the success messages are produced exactly when the context exits normally. -/
theorem script_failure_propagates_success_message_after_exit :
    ∀ sc ∈ allScriptRuns, ∀ render : RenderFn,
      (∀ e, render (run sc.1) = Except.error e →
        scriptMain render sc.1 sc.2 = Except.error e) ∧
      (∀ o, render (run sc.1) = Except.ok o →
        scriptMain render sc.1 sc.2 = Except.ok (o, sc.2)) := by
  intro sc _ render
  constructor
  · intro e he
    simp [scriptMain, he]
  · intro o ho
    simp [scriptMain, ho]

theorem script_failure_propagates_success_message_after_exit_witness :
    scriptMain (fun _ => Except.error "dot executable not found")
        C1Ctx.cmds c1ContextMsgs = Except.error "dot executable not found" ∧
    scriptMain (fun _ => Except.ok "c1_system_context_diagram.jpg")
        C1Ctx.cmds c1ContextMsgs =
      Except.ok ("c1_system_context_diagram.jpg", c1ContextMsgs) :=
  ⟨(script_failure_propagates_success_message_after_exit
      (C1Ctx.cmds, c1ContextMsgs) (by simp [allScriptRuns])
      (fun _ => Except.error "dot executable not found")).1
      "dot executable not found" rfl,
   (script_failure_propagates_success_message_after_exit
      (C1Ctx.cmds, c1ContextMsgs) (by simp [allScriptRuns])
      (fun _ => Except.ok "c1_system_context_diagram.jpg")).2
      "c1_system_context_diagram.jpg" rfl⟩

/-- C9: the reversed edge operator appends the reversed directed edge (from
b to a for the source text a << b) and evaluates to b so that chains
associate; concretely, the observability script's datasource declaration
yields an edge from grafana to prometheus. -/
theorem reversed_edge_operator_appends_reversed_edge :
    (∀ (a b : Nat) (l : String) (s : DiagramState),
      (lshift a b l s).1 = b ∧
      (lshift a b l s).2.edges = s.edges ++ [EdgeDecl.mk b a l true]) ∧
    EdgeDecl.mk Observability.grafana Observability.prometheus
      "data source" true ∈ Observability.state.edges := by
  constructor
  · exact fun a b l s => ⟨rfl, rfl⟩
  · decide

/-- C10: connecting a node to a non-empty list of target nodes appends
exactly one directed edge from the node to each list element, in order, and
nothing else, and evaluates to the list. -/
theorem edge_operator_fanout_appends_one_edge_per_target :
    ∀ (a : Nat) (bs : List Nat) (l : String) (s : DiagramState), bs ≠ [] →
      (rshiftList a bs l s).1 = bs ∧
      (rshiftList a bs l s).2.edges =
        s.edges ++ bs.map (fun b => EdgeDecl.mk a b l true) := by
  intro a bs l s _
  exact ⟨rfl, foldl_addEdge_edges a l bs s⟩

theorem edge_operator_fanout_appends_one_edge_per_target_witness :
    ([1, 2, 3] ≠ ([] : List Nat)) ∧
    ((rshiftList 0 [1, 2, 3] "uses" DiagramState.empty).1 = [1, 2, 3] ∧
     (rshiftList 0 [1, 2, 3] "uses" DiagramState.empty).2.edges =
       DiagramState.empty.edges ++
         [1, 2, 3].map (fun b => EdgeDecl.mk 0 b "uses" true)) :=
  ⟨by decide, edge_operator_fanout_appends_one_edge_per_target 0 [1, 2, 3]
    "uses" DiagramState.empty (by decide)⟩

end EcomDiagrams
